import Mathlib

/-!
# AI-CDP analytics core: a shallow embedding

This file embeds the analytics/query-translation core of the AI-CDP
repository (`core_analysis/ai_engine.py`, with the legacy copies in
`dashboard.py`) and proves or refutes the specification's claims about it.

Modelling conventions:
* Python floats are modelled as `ℚ`.  All numeric columns of the data are
  ordinary finite floats, so exact rational arithmetic is faithful for the
  claims at hand; the only places the Python code can produce a non-finite
  float (`inf`/`nan`, via pandas division or a mean over an empty selection)
  are modelled explicitly with the `PdNum` type or with `Option ℚ`.
* A pandas `DataFrame` is a `Table`: a list of rows plus a record of which
  columns are present (`Cols`).  Row values of absent columns are irrelevant;
  the engine consults the column set before touching a column, exactly as the
  source does with `'X' in df.columns`.
* `timestamp` is minutes since an epoch (`ℤ`); `.dt.date` is modelled by
  integer division by the number of minutes in a day.
* Code that would raise a Python exception (a `KeyError` from an unguarded
  column access) is modelled with `Option`: `none` is "raises".
* In-place DataFrame mutation (`df['X'] = ...`) is modelled by explicit state
  passing: the aggregators return the metrics *and* the table as it is left
  after the call.
-/

namespace AICDP

/-- A pandas float that may be non-finite: the result grid of NumPy true
division (`x/0` is `±inf` for `x ≠ 0` and `nan` for `x = 0`). -/
inductive PdNum where
  | fin (q : ℚ)
  | posInf
  | negInf
  | nan
deriving Repr, DecidableEq

/-- NumPy elementwise `a / b * 100` on floats (as produced by the pandas
defect-rate expressions): finite quotient when `b ≠ 0`, otherwise a signed
infinity or `nan`. -/
def pdDivPct (a b : ℚ) : PdNum :=
  if b ≠ 0 then .fin (a / b * 100)
  else if a > 0 then .posInf
  else if a < 0 then .negInf
  else .nan

/-- pandas `.fillna(0)`: replaces `nan` (and only `nan`) by `0`. -/
def PdNum.fillna0 : PdNum → PdNum
  | .nan => .fin 0
  | x => x

/-- The test `x > 5` on a pandas float (`inf > 5` is true, `nan > 5` is false). -/
def PdNum.gtFive : PdNum → Bool
  | .fin q => decide (5 < q)
  | .posInf => true
  | .negInf => false
  | .nan => false

/-- Comparison `a ≤ b` on pandas floats as used by `sort_values` (no `nan` present after
`fillna(0)`; `-inf < finite < +inf`). -/
def PdNum.leB : PdNum → PdNum → Bool
  | .negInf, _ => true
  | _, .posInf => true
  | .fin a, .fin b => decide (a ≤ b)
  | .fin _, .negInf => false
  | .posInf, _ => false
  | .nan, _ => false
  | _, .nan => false

/-- Which columns a table has (pandas `df.columns` membership). -/
structure Cols where
  revenue : Bool
  profit : Bool
  quantity : Bool
  sku : Bool
  timestamp : Bool
  quantityProduced : Bool
  defects : Bool
  defectRate : Bool
  lineID : Bool
  passFailStatus : Bool
  inventoryLevel : Bool
  dailyConsumption : Bool
  lowStockAlerts : Bool
  daysToDepletion : Bool
  storeID : Bool
  domain : Bool
  date : Bool
deriving Repr, DecidableEq

/-- One normalized record of the unified schema.  Fields of columns a given
table does not carry are dead values (never consulted by the engine). -/
structure Row where
  Revenue : ℚ
  Profit : ℚ
  Quantity : ℚ
  SKU : String
  timestamp : ℤ
  Quantity_Produced : ℚ
  Defects : ℚ
  Defect_Rate : ℚ
  Line_ID : String
  Pass_Fail_Status : String
  Inventory_Level : ℚ
  Daily_Consumption : ℚ
  Low_Stock_Alerts : ℚ
  Days_to_Depletion : ℚ
  Store_ID : String
  domain : String
  Date : ℤ
deriving Repr, DecidableEq

/-- A DataFrame: column set plus rows. -/
structure Table where
  cols : Cols
  rows : List Row
deriving Repr, DecidableEq

/-- Minutes in a day; `.dt.date` of a timestamp in minutes. -/
def minutesPerDay : ℤ := 1440

/-- Via `pd.to_datetime(ts).dt.date`: the calendar day of a timestamp. -/
def dateOf (t : ℤ) : ℤ := t / minutesPerDay

/-- Sum of a rational column (`df['X'].sum()`; `0` on an empty frame). -/
def sumQ (l : List ℚ) : ℚ := l.foldr (· + ·) 0

/-- Mean of a non-empty rational column (`df['X'].mean()`). -/
def meanQ (l : List ℚ) : ℚ := sumQ l / l.length

/-- Does `p` start `l`? -/
def isPrefixB (p l : List Char) : Bool :=
  match p, l with
  | [], _ => true
  | _ :: _, [] => false
  | a :: as, b :: bs => a == b && isPrefixB as bs

/-- Does `p` occur contiguously inside `l`? -/
def isInfixB (p : List Char) : List Char → Bool
  | [] => p.isEmpty
  | b :: bs => isPrefixB p (b :: bs) || isInfixB p bs

/-- Substring test (`needle in hay` on Python strings). -/
def strContains (hay needle : String) : Bool :=
  isInfixB needle.toList hay.toList

/-- Insertion step for a stable insertion sort with a boolean "may come
first" relation. -/
def insLe {α : Type} (le : α → α → Bool) (a : α) : List α → List α
  | [] => [a]
  | b :: bs => if le a b then a :: b :: bs else b :: insLe le a bs

/-- Stable insertion sort (models pandas `sort_values`; the concrete inputs
in this file have pairwise distinct keys, so stability questions are moot). -/
def sortLe {α : Type} (le : α → α → Bool) : List α → List α
  | [] => []
  | a :: as => insLe le a (sortLe le as)

/-- First-occurrence deduplication of a key column. -/
def dedupKeys {κ : Type} [DecidableEq κ] (l : List κ) : List κ :=
  l.foldl (fun acc k => if k ∈ acc then acc else acc ++ [k]) []

/-- The distinct keys of a grouping in ascending order (pandas `groupby`
sorts group keys). -/
def groupKeys {κ : Type} [DecidableEq κ] (le : κ → κ → Bool)
    (key : Row → κ) (rows : List Row) : List κ :=
  sortLe le (dedupKeys (rows.map key))

/-- The rows of one group. -/
def groupRows {κ : Type} [DecidableEq κ] (key : Row → κ) (k : κ)
    (rows : List Row) : List Row :=
  rows.filter fun r => decide (key r = k)

/-- Python's `str.lower()` (the data at hand is ASCII). -/
def lowerStr (s : String) : String := String.mk (s.toList.map Char.toLower)

/-- Code-point comparison of characters. -/
def charLe (a b : Char) : Bool := decide (a.toNat ≤ b.toNat)

/-- Lexicographic code-point order on char lists. -/
def charsLe : List Char → List Char → Bool
  | [], _ => true
  | _ :: _, [] => false
  | a :: as, b :: bs =>
      if a == b then charsLe as bs else charLe a b

/-- Lexicographic string order, as pandas sorts string group keys. -/
def strLe (a b : String) : Bool := charsLe a.toList b.toList

/-- Comparison `a ≤ b` on `ℤ` as a boolean (for sorting date keys). -/
def intLe (a b : ℤ) : Bool := decide (a ≤ b)

/-! ## Domain aggregators (`AIEngine.analyze_*`)

Each aggregator is embedded with explicit state passing: it returns the
metrics structure together with the table as the in-place column writes of
the source leave it.  `none` models a raised `KeyError` from an unguarded
column access. -/

/-- One row of `revenue_trend` (daily revenue/profit sums). -/
structure DailySales where
  Date : ℤ
  Revenue : ℚ
  Profit : ℚ
deriving Repr, DecidableEq

/-- One row of `top_products` (per-SKU sums). -/
structure ProductAgg where
  SKU : String
  Revenue : ℚ
  Quantity : ℚ
  Profit : ℚ
deriving Repr, DecidableEq

/-- The metrics structure returned by `analyze_sales`. -/
structure SalesMetrics where
  total_revenue : ℚ
  total_profit : ℚ
  profit_margin : ℚ
  revenue_trend : List DailySales
  top_products : List ProductAgg
deriving Repr, DecidableEq

/-- The zeroed sales metrics returned on the empty / missing-column guards. -/
def zeroSalesMetrics : SalesMetrics := ⟨0, 0, 0, [], []⟩

/-- The function `AIEngine.analyze_sales` (`ai_engine.py:71-123`). -/
def analyze_sales (sales_df : Table) : Option (SalesMetrics × Table) :=
  if sales_df.rows.isEmpty then some (zeroSalesMetrics, sales_df)
  else if !sales_df.cols.revenue then some (zeroSalesMetrics, sales_df)
  else
    -- sales_df['Profit'] = sales_df['Revenue'] * 0.40   (in-place write)
    let df1 : Table :=
      { cols := { sales_df.cols with profit := true },
        rows := sales_df.rows.map fun r => { r with Profit := r.Revenue * (2/5) } }
    let total_revenue := sumQ (df1.rows.map Row.Revenue)
    let total_profit := sumQ (df1.rows.map Row.Profit)
    let profit_margin := if total_revenue > 0 then total_profit / total_revenue * 100 else 0
    -- if 'timestamp' in columns: sales_df['Date'] = ... (in-place write),
    -- then revenue_trend = groupby('Date') sums, sorted ascending by Date
    let df2 : Table :=
      if df1.cols.timestamp then
        { cols := { df1.cols with date := true },
          rows := df1.rows.map fun r => { r with Date := dateOf r.timestamp } }
      else df1
    let revenue_trend : List DailySales :=
      if df2.cols.timestamp then
        sortLe (fun a b => intLe a.Date b.Date)
          ((groupKeys intLe Row.Date df2.rows).map fun d =>
            let g := groupRows Row.Date d df2.rows
            ⟨d, sumQ (g.map Row.Revenue), sumQ (g.map Row.Profit)⟩)
      else []
    -- if 'SKU' in columns: groupby('SKU').agg({Revenue, Quantity, Profit});
    -- the aggregation raises a KeyError when the Quantity column is absent
    if df2.cols.sku && !df2.cols.quantity then none
    else
      let top_products : List ProductAgg :=
        if df2.cols.sku then
          (sortLe (fun a b => decide (b.Revenue ≤ a.Revenue))
            ((groupKeys strLe Row.SKU df2.rows).map fun s =>
              let g := groupRows Row.SKU s df2.rows
              ⟨s, sumQ (g.map Row.Revenue), sumQ (g.map Row.Quantity),
               sumQ (g.map Row.Profit)⟩)).take 10
        else []
      some ({ total_revenue, total_profit, profit_margin, revenue_trend,
              top_products }, df2)

/-- One row of `defect_trend` (daily sums with the rate recomputed from the
daily totals, `fillna(0)`). -/
structure DailyDefect where
  Date : ℤ
  Quantity_Produced : ℚ
  Defects : ℚ
  Defect_Rate : PdNum
deriving Repr, DecidableEq

/-- One row of the per-line grouping (`line_stats`). -/
structure LineAgg where
  Line_ID : String
  Quantity_Produced : ℚ
  Defects : ℚ
  Defect_Rate : PdNum
deriving Repr, DecidableEq

/-- The metrics structure returned by `analyze_quality`. -/
structure QualityMetrics where
  avg_defect_rate : ℚ
  total_defects : ℚ
  total_produced : ℚ
  defect_trend : List DailyDefect
  line_performance : List LineAgg
  anomalies : List String
deriving Repr, DecidableEq

/-- The zeroed quality metrics returned on the empty guard. -/
def zeroQualityMetrics : QualityMetrics := ⟨0, 0, 0, [], [], []⟩

/-- The `groupby('Line_ID')` sums with the rate recomputed from group totals
(`fillna(0)`), in ascending key order. -/
def lineStats (rows : List Row) : List LineAgg :=
  (groupKeys strLe Row.Line_ID rows).map fun k =>
    let g := groupRows Row.Line_ID k rows
    let qp := sumQ (g.map Row.Quantity_Produced)
    let d := sumQ (g.map Row.Defects)
    ⟨k, qp, d, (pdDivPct d qp).fillna0⟩

/-- The function `AIEngine.analyze_quality` (`ai_engine.py:125-184`). -/
def analyze_quality (manufacturing_df : Table) : Option (QualityMetrics × Table) :=
  if manufacturing_df.rows.isEmpty then some (zeroQualityMetrics, manufacturing_df)
  else
    -- manufacturing_df['Defect_Rate'] = 0   (in-place write)
    let df1 : Table :=
      { cols := { manufacturing_df.cols with defectRate := true },
        rows := manufacturing_df.rows.map fun r => { r with Defect_Rate := 0 } }
    -- masked recompute where Quantity_Produced > 0
    let df2 : Table :=
      if df1.cols.quantityProduced && df1.cols.defects then
        { df1 with rows := df1.rows.map fun r =>
            if r.Quantity_Produced > 0 then
              { r with Defect_Rate := r.Defects / r.Quantity_Produced * 100 }
            else r }
      else df1
    -- unguarded `manufacturing_df['Quantity_Produced'].sum()` /
    -- `['Defects'].sum()`: KeyError when either column is absent
    if !(df2.cols.quantityProduced && df2.cols.defects) then none
    else
      let total_produced := sumQ (df2.rows.map Row.Quantity_Produced)
      let total_defects := sumQ (df2.rows.map Row.Defects)
      let avg_defect_rate :=
        if total_produced > 0 then total_defects / total_produced * 100 else 0
      let df3 : Table :=
        if df2.cols.timestamp then
          { cols := { df2.cols with date := true },
            rows := df2.rows.map fun r => { r with Date := dateOf r.timestamp } }
        else df2
      let defect_trend : List DailyDefect :=
        if df3.cols.timestamp then
          sortLe (fun a b => intLe a.Date b.Date)
            ((groupKeys intLe Row.Date df3.rows).map fun dt =>
              let g := groupRows Row.Date dt df3.rows
              let qp := sumQ (g.map Row.Quantity_Produced)
              let d := sumQ (g.map Row.Defects)
              ⟨dt, qp, d, (pdDivPct d qp).fillna0⟩)
        else []
      let ls := if df3.cols.lineID then lineStats df3.rows else []
      let line_performance :=
        if df3.cols.lineID then
          sortLe (fun a b => PdNum.leB b.Defect_Rate a.Defect_Rate) ls
        else []
      let anomalies :=
        if df3.cols.lineID then
          (ls.filter fun a => a.Defect_Rate.gtFive).map LineAgg.Line_ID
        else []
      some ({ avg_defect_rate, total_defects, total_produced, defect_trend,
              line_performance, anomalies }, df3)

/-- One row of the `critical_stores` projection. -/
structure CriticalRow where
  Store_ID : String
  Inventory_Level : ℚ
  Daily_Consumption : ℚ
  Days_to_Depletion : ℚ
deriving Repr, DecidableEq

/-- One row of `inventory_trend` (daily sums of level and alert count). -/
structure DailyInventory where
  Date : ℤ
  Inventory_Level : ℚ
  Low_Stock_Alerts : ℚ
deriving Repr, DecidableEq

/-- The metrics structure returned by `analyze_inventory`. -/
structure InventoryMetrics where
  total_inventory : ℚ
  low_stock_alerts : ℚ
  avg_days_to_depletion : ℚ
  critical_stores : List CriticalRow
  inventory_trend : List DailyInventory
deriving Repr, DecidableEq

/-- The zeroed inventory metrics returned on the empty guard. -/
def zeroInventoryMetrics : InventoryMetrics := ⟨0, 0, 0, [], []⟩

/-- The function `AIEngine.analyze_inventory` (`ai_engine.py:186-235`; its legacy copy in
`dashboard.py:1089-1136` is line-for-line identical). -/
def analyze_inventory (field_df : Table) : Option (InventoryMetrics × Table) :=
  if field_df.rows.isEmpty then some (zeroInventoryMetrics, field_df)
  else
    -- field_df['Days_to_Depletion'] = 0   (in-place write)
    let df1 : Table :=
      { cols := { field_df.cols with daysToDepletion := true },
        rows := field_df.rows.map fun r => { r with Days_to_Depletion := 0 } }
    -- masked recompute where Daily_Consumption > 0
    let df2 : Table :=
      if df1.cols.inventoryLevel && df1.cols.dailyConsumption then
        { df1 with rows := df1.rows.map fun r =>
            if r.Daily_Consumption > 0 then
              { r with Days_to_Depletion := r.Inventory_Level / r.Daily_Consumption }
            else r }
      else df1
    -- `.replace([np.inf, -np.inf], 999)`: every value written above is a
    -- finite float (`0`, or a quotient with a strictly positive divisor), so
    -- the replacement never fires — it is the identity on the column.
    let df3 : Table := df2
    -- unguarded `field_df['Inventory_Level'].sum()` /
    -- `['Low_Stock_Alerts'].sum()`: KeyError when either column is absent
    if !df3.cols.inventoryLevel || !df3.cols.lowStockAlerts then none
    else
      let total_inventory := sumQ (df3.rows.map Row.Inventory_Level)
      let low_stock_alerts := sumQ (df3.rows.map Row.Low_Stock_Alerts)
      -- mean over the rows with Days_to_Depletion < 999
      -- (`nan`, reported as 0 at the return, when no row qualifies)
      let sel := df3.rows.filter fun r => decide (r.Days_to_Depletion < 999)
      let avgOpt : Option ℚ :=
        if sel.isEmpty then none else some (meanQ (sel.map Row.Days_to_Depletion))
      -- the critical projection reads Inventory_Level and Daily_Consumption
      -- unguarded: KeyError when Store_ID is present but Daily_Consumption
      -- is not
      if df3.cols.storeID && !df3.cols.dailyConsumption then none
      else
        let critical_stores : List CriticalRow :=
          if df3.cols.storeID then
            sortLe (fun a b => decide (a.Days_to_Depletion ≤ b.Days_to_Depletion))
              ((df3.rows.filter fun r => decide (r.Days_to_Depletion < 7)).map fun r =>
                ⟨r.Store_ID, r.Inventory_Level, r.Daily_Consumption,
                 r.Days_to_Depletion⟩)
          else []
        let df4 : Table :=
          if df3.cols.timestamp then
            { cols := { df3.cols with date := true },
              rows := df3.rows.map fun r => { r with Date := dateOf r.timestamp } }
          else df3
        let inventory_trend : List DailyInventory :=
          if df4.cols.timestamp then
            sortLe (fun a b => intLe a.Date b.Date)
              ((groupKeys intLe Row.Date df4.rows).map fun dt =>
                let g := groupRows Row.Date dt df4.rows
                ⟨dt, sumQ (g.map Row.Inventory_Level),
                 sumQ (g.map Row.Low_Stock_Alerts)⟩)
          else []
        some ({ total_inventory, low_stock_alerts,
                avg_days_to_depletion := avgOpt.getD 0,
                critical_stores, inventory_trend }, df4)

/-- The metrics structure returned by `analyze_testing`. -/
structure TestingMetrics where
  total_tests : ℕ
  pass_rate : ℚ
  failed_tests : ℕ
deriving Repr, DecidableEq

/-- The function `AIEngine.analyze_testing` (`ai_engine.py:237-260`).  The source performs
no column writes, so no table is threaded back. -/
def analyze_testing (testing_df : Table) : TestingMetrics :=
  if testing_df.rows.isEmpty then ⟨0, 0, 0⟩
  else
    let total_tests := testing_df.rows.length
    if testing_df.cols.passFailStatus then
      let failed_tests :=
        (testing_df.rows.filter fun r =>
          decide (lowerStr r.Pass_Fail_Status = "failed")).length
      let pass_rate :=
        if total_tests > 0 then
          ((total_tests : ℚ) - failed_tests) / total_tests * 100
        else 0
      ⟨total_tests, pass_rate, failed_tests⟩
    else ⟨total_tests, 0, 0⟩

/-! ## Filter engine (`AIEngine._apply_filters`) -/

/-- The typed filter record carried by a classified intent.  A `some` field
is a key present in the `filters` dict with a JSON string value; `none` is an
absent key. -/
structure FilterSpec where
  time_range : Option String
  domain : Option String
  sku : Option String
  line_id : Option String
  store_id : Option String
deriving Repr, DecidableEq

/-- A filter spec with no keys (`{}`). -/
def emptyFilterSpec : FilterSpec := ⟨none, none, none, none, none⟩

/-- Selection `filtered_df = filtered_df[pred]`: boolean-mask row filtering. -/
def filterStage (p : Row → Bool) (t : Table) : Table :=
  { t with rows := t.rows.filter p }

/-- The `time_range` branch chain of `_apply_filters` (`ai_engine.py:330-343`).
`now` is the reference instant `datetime.now()`, in minutes. -/
def timeStage (now : ℤ) (tr : String) (t : Table) : Table :=
  let tf := lowerStr tr
  if strContains tf "last month" || strContains tf "past month" then
    filterStage (fun r => decide (now - 30 * minutesPerDay ≤ r.timestamp)) t
  else if strContains tf "last week" || strContains tf "past week" then
    filterStage (fun r => decide (now - 7 * minutesPerDay ≤ r.timestamp)) t
  else if strContains tf "last year" || strContains tf "past year" then
    filterStage (fun r => decide (now - 365 * minutesPerDay ≤ r.timestamp)) t
  else if strContains tf "today" then
    filterStage (fun r => decide (dateOf r.timestamp = dateOf now)) t
  else t

/-- The free-text-to-canonical domain name table of `_apply_filters`. -/
def domainMap (s : String) : Option String :=
  if s = "sales" then some "Sales"
  else if s = "manufacturing" then some "Manufacturing"
  else if s = "testing" then some "Testing"
  else if s = "field" then some "Field"
  else if s = "inventory" then some "Field"
  else none

/-- One `if 'key' in filters and 'Col' in filtered_df.columns:` block of
`_apply_filters`: filter by `p x` when the key is present (`some x`) and the
column exists (`flag`), otherwise leave the table alone. -/
def optStage {σ : Type} (o : Option σ) (flag : Bool) (p : σ → Row → Bool)
    (t : Table) : Table :=
  match o with
  | some x => if flag then filterStage (p x) t else t
  | none => t

/-- The `time_range` block of `_apply_filters` as a guarded stage. -/
def timeStageOpt (now : ℤ) (o : Option String) (flag : Bool) (t : Table) : Table :=
  match o with
  | some tr => if flag then timeStage now tr t else t
  | none => t

/-- The function `AIEngine._apply_filters` (`ai_engine.py:320-365`).  The source first
takes `df.copy()`; with immutable values the copy is the table itself.  Each
filter block of the source is one `optStage`. -/
def apply_filters (now : ℤ) (df : Table) (filters : Option FilterSpec) : Table :=
  let filtered_df := df
  match filters with
  | none => filtered_df
  | some fs =>
    if df.rows.isEmpty then filtered_df
    else
      let f1 := timeStageOpt now fs.time_range filtered_df.cols.timestamp filtered_df
      let f2 := optStage fs.domain f1.cols.domain
        (fun d r => decide (r.domain = (domainMap (lowerStr d)).getD d)) f1
      let f3 := optStage fs.sku f2.cols.sku (fun s r => decide (r.SKU = s)) f2
      let f4 := optStage fs.line_id f3.cols.lineID
        (fun l r => decide (r.Line_ID = l)) f3
      let f5 := optStage fs.store_id f4.cols.storeID
        (fun s r => decide (r.Store_ID = s)) f4
      f5

/-- The row predicate of the `time_range` branch chain (true on the
branches that do not filter). -/
def timePred (now : ℤ) (tr : String) (r : Row) : Bool :=
  let tf := lowerStr tr
  if strContains tf "last month" || strContains tf "past month" then
    decide (now - 30 * minutesPerDay ≤ r.timestamp)
  else if strContains tf "last week" || strContains tf "past week" then
    decide (now - 7 * minutesPerDay ≤ r.timestamp)
  else if strContains tf "last year" || strContains tf "past year" then
    decide (now - 365 * minutesPerDay ≤ r.timestamp)
  else if strContains tf "today" then
    decide (dateOf r.timestamp = dateOf now)
  else true

/-- The row predicate of one guarded filter stage (true when the stage is a
no-op). -/
def optPred {σ : Type} (o : Option σ) (flag : Bool) (p : σ → Row → Bool)
    (r : Row) : Bool :=
  match o with
  | some x => if flag then p x r else true
  | none => true

/-- The conjunction of all five stage predicates of `_apply_filters`, over a
fixed column set (associated as the nested row-filters combine, last stage
outermost). -/
def fullPred (now : ℤ) (c : Cols) (fs : FilterSpec) (r : Row) : Bool :=
  optPred fs.store_id c.storeID (fun s r => decide (r.Store_ID = s)) r
    && (optPred fs.line_id c.lineID (fun l r => decide (r.Line_ID = l)) r
      && (optPred fs.sku c.sku (fun s r => decide (r.SKU = s)) r
        && (optPred fs.domain c.domain
              (fun d r => decide (r.domain = (domainMap (lowerStr d)).getD d)) r
          && optPred fs.time_range c.timestamp (timePred now) r)))

/-! ## Analysis dispatcher (`AIEngine._execute_analysis`)

The insight is the tuple of values the source interpolates into its
templated markdown string; the figure is identified by its construction
site (title/colour styling is presentation). -/

/-- A chart, identified by which plotting call built it. -/
inductive Fig where
  | salesLine | salesArea | salesBar
  | mfgBar | mfgLine
  | testPie | testBar
  | invLine | invArea
deriving Repr, DecidableEq

/-- The content of the dispatcher's insight text: either one of its constant
messages, or the values interpolated into the per-domain template. -/
inductive Insight where
  | message (s : String)
  | sales (total_revenue total_profit : ℚ) (profit_margin : PdNum)
      (top : Option (String × ℚ))
  | manufacturing (avg_defect_rate : ℚ) (total_produced total_defects : ℚ)
      (worst : Option (String × ℚ))
  | testing (total_tests passed failed : ℕ) (pass_rate : ℚ)
  | inventory (total_inventory low_stock_alerts : ℚ) (avg_days : Option ℚ)
      (critical : Option ℕ)
deriving Repr, DecidableEq

/-- Pandas `series.idxmax()`/`.max()` over a key-sorted aggregation: the first
maximal entry. -/
def argmaxQ (l : List (String × ℚ)) : Option (String × ℚ) :=
  l.foldl (fun acc kv =>
    match acc with
    | none => some kv
    | some best => if kv.2 > best.2 then some kv else some best) none

/-- The series `df.groupby('SKU')['Revenue'].sum()` (keys ascending). -/
def skuRevenueSums (rows : List Row) : List (String × ℚ) :=
  (groupKeys strLe Row.SKU rows).map fun s =>
    (s, sumQ ((groupRows Row.SKU s rows).map Row.Revenue))

/-- The series `df.groupby('Line_ID')['Defect_Rate'].mean()` (keys ascending). -/
def lineRateMeans (rows : List Row) : List (String × ℚ) :=
  (groupKeys strLe Row.Line_ID rows).map fun k =>
    (k, meanQ ((groupRows Row.Line_ID k rows).map Row.Defect_Rate))

/-- The per-row `Days_to_Depletion` value the dispatcher's inventory branch
sees after its masked write: freshly computed where `Daily_Consumption > 0`
(when that column exists), else the pre-existing column value, else `NaN` /
the `df.get` default `inf` (`none`, which fails the `< 7` test). -/
def dispDaysVal (hasConsumption hadDays : Bool) (r : Row) : Option ℚ :=
  if hasConsumption && decide (r.Daily_Consumption > 0) then
    some (r.Inventory_Level / r.Daily_Consumption)
  else if hadDays then some r.Days_to_Depletion
  else none

/-- The function `AIEngine._execute_analysis` (`ai_engine.py:367-521`). -/
def execute_analysis (df : Table) (analysis_type visualization_type : String) :
    Insight × Option Fig :=
  if df.rows.isEmpty then
    (.message "No data available for the specified filters.", none)
  else
    let at_ := lowerStr analysis_type
    let vt := lowerStr visualization_type
    if strContains at_ "sales" || strContains at_ "revenue" then
      if !df.cols.revenue then
        (.message "Sales data not available in filtered results.", none)
      else
        let total_revenue := sumQ (df.rows.map Row.Revenue)
        let total_profit :=
          if df.cols.profit then sumQ (df.rows.map Row.Profit)
          else total_revenue * (2/5)
        -- f"{(total_profit/total_revenue*100):.2f}%": unguarded float
        -- division, `nan`/`inf` when total_revenue is 0
        let profit_margin := pdDivPct total_profit total_revenue
        let top := if df.cols.sku then argmaxQ (skuRevenueSums df.rows) else none
        let fig : Option Fig :=
          if df.cols.timestamp then
            some (if strContains vt "line" then .salesLine
                  else if strContains vt "area" then .salesArea
                  else .salesBar)
          else none
        (.sales total_revenue total_profit profit_margin top, fig)
    else if strContains at_ "manufacturing" || strContains at_ "quality"
        || strContains at_ "defect" then
      if !df.cols.defectRate then
        (.message "Manufacturing data not available in filtered results.", none)
      else
        -- avg_defect_rate = df['Defect_Rate'].mean(): the arithmetic mean of
        -- the per-record rates, not a recomputation from totals
        let avg_defect_rate := meanQ (df.rows.map Row.Defect_Rate)
        let total_produced :=
          if df.cols.quantityProduced then sumQ (df.rows.map Row.Quantity_Produced) else 0
        let total_defects :=
          if df.cols.defects then sumQ (df.rows.map Row.Defects) else 0
        let worst := if df.cols.lineID then argmaxQ (lineRateMeans df.rows) else none
        let fig : Option Fig :=
          if df.cols.lineID then
            some (if strContains vt "bar" then .mfgBar else .mfgLine)
          else none
        (.manufacturing avg_defect_rate total_produced total_defects worst, fig)
    else if strContains at_ "testing" || strContains at_ "test" then
      if !df.cols.passFailStatus then
        (.message "Testing data not available in filtered results.", none)
      else
        let total_tests := df.rows.length
        let passed :=
          (df.rows.filter fun r => decide (lowerStr r.Pass_Fail_Status = "passed")).length
        let failed := total_tests - passed
        let pass_rate :=
          if total_tests > 0 then (passed : ℚ) / total_tests * 100 else 0
        let fig : Option Fig :=
          some (if strContains vt "pie" || strContains vt "donut" then Fig.testPie
                else Fig.testBar)
        (.testing total_tests passed failed pass_rate, fig)
    else if strContains at_ "field" || strContains at_ "inventory" then
      if !df.cols.inventoryLevel then
        (.message "Field/Inventory data not available in filtered results.", none)
      else
        let total_inventory := sumQ (df.rows.map Row.Inventory_Level)
        let low_stock_alerts :=
          if df.cols.lowStockAlerts then sumQ (df.rows.map Row.Low_Stock_Alerts) else 0
        -- avg_days = df.loc[mask, 'Days_to_Depletion'].mean(): `nan` when no
        -- row has positive consumption (printed as "nan")
        let avg_days : Option ℚ :=
          if df.cols.dailyConsumption then
            let sel := df.rows.filter fun r => decide (r.Daily_Consumption > 0)
            if sel.isEmpty then none
            else some (meanQ (sel.map fun r => r.Inventory_Level / r.Daily_Consumption))
          else some 0
        -- the critical-store line is appended only when the selection is
        -- non-empty
        let critical : Option ℕ :=
          if df.cols.storeID then
            let c := (df.rows.filter fun r =>
              match dispDaysVal df.cols.dailyConsumption df.cols.daysToDepletion r with
              | some q => decide (q < 7)
              | none => false).length
            if c > 0 then some c else none
          else none
        let fig : Option Fig :=
          if df.cols.timestamp then
            some (if strContains vt "line" then Fig.invLine else Fig.invArea)
          else none
        (.inventory total_inventory low_stock_alerts avg_days critical, fig)
    else
      (.message "Analysis type not recognized. Please try rephrasing your query.", none)

/-! ## Intent classification boundary and chat pipeline -/

/-- The fields of the JSON object the intent classifier may return
(`dict.get` with the source's defaults). -/
structure IntentDict where
  requires_visualization : Bool
  response : Option String
  explanation : Option String
  filters : Option FilterSpec
  analysis_type : Option String
  visualization_type : Option String
deriving Repr, DecidableEq

/-- What the external classifier call produced, before the engine's
error handling is applied. -/
inductive ClassifierOutcome where
  /-- The `requests` call raised (connection error, non-2xx status via
  `raise_for_status`, ...); `detail` is the transport-level message. -/
  | transportError (detail : String)
  /-- the 30-second request timeout elapsed -/
  | timedOut
  /-- a 2xx response without a usable `candidates` entry -/
  | noCandidates
  /-- the candidate text was not valid JSON (`json.loads` raised) -/
  | malformedJSON (raw : String)
  /-- a non-empty JSON object was parsed -/
  | ok (d : IntentDict)
deriving Repr, DecidableEq

/-- Python truthiness of the api key (`None` or `''` is unusable). -/
def keyFalsy : Option String → Bool
  | none => true
  | some k => k == ""

/-- The function `AIEngine._call_gemini_api` (`ai_engine.py:275-318`): every failure mode
is caught (the detail goes to an internal `st.error` log) and surfaced as
`None`. -/
def call_gemini_api (api_key : Option String) (outcome : ClassifierOutcome) :
    Option IntentDict :=
  if keyFalsy api_key then none
  else
    match outcome with
    | .ok d => some d
    | _ => none

/-- The conversational reply: one of the source's constant strings, or the
`f"💡 {explanation}\n\n{insight}"` template. -/
inductive ChatText where
  | plain (s : String)
  | withInsight (explanation : String) (insight : Insight)
deriving Repr, DecidableEq

/-- The function `AIEngine.process_chat_query` (`ai_engine.py:523-615`).  The chat history
and data summary only shape the prompt handed to the external classifier and
are absorbed into `outcome`. -/
def process_chat_query (api_key : Option String) (now : ℤ)
    (outcome : ClassifierOutcome) (full_df : Table) : ChatText × Option Fig :=
  if keyFalsy api_key then
    (.plain "❌ Gemini API key not configured. Please add GEMINI_API_KEY to secrets.toml",
     none)
  else
    match call_gemini_api api_key outcome with
    | none => (.plain "❌ Failed to process your question. Please try again.", none)
    | some parsed =>
      if !parsed.requires_visualization then
        (.plain (parsed.response.getD
          "I understand your question. How can I help you with data analysis?"), none)
      else
        let explanation := parsed.explanation.getD "Analyzing your data..."
        let filters := parsed.filters.getD emptyFilterSpec
        let analysis_type := parsed.analysis_type.getD ""
        let visualization_type := parsed.visualization_type.getD "bar_chart"
        let filtered_df := apply_filters now full_df (some filters)
        let res := execute_analysis filtered_df analysis_type visualization_type
        (.withInsight explanation res.1, res.2)

/-! ## Accessors and concrete inputs used by the theorems -/

/-- The `avg_defect_rate` field produced by `analyze_quality` (when it does
not raise). -/
def qualityAvg (df : Table) : Option ℚ :=
  (analyze_quality df).map fun p => p.1.avg_defect_rate

/-- The `profit_margin` field produced by `analyze_sales` (when it does not
raise). -/
def salesMargin (df : Table) : Option ℚ :=
  (analyze_sales df).map fun p => p.1.profit_margin

/-- The `(avg_days_to_depletion, critical store ids, per-row Days_to_Depletion)`
view of an `analyze_inventory` result. -/
def invSummary (df : Table) : Option (ℚ × List String × List ℚ) :=
  (analyze_inventory df).map fun p =>
    (p.1.avg_days_to_depletion, p.1.critical_stores.map CriticalRow.Store_ID,
     p.2.rows.map Row.Days_to_Depletion)

/-- The table an aggregator leaves behind. -/
def salesPostTable (df : Table) : Option Table :=
  (analyze_sales df).map fun p => p.2

/-- After `analyze_sales`, the table has a Profit column and every row's
Profit equals Revenue × 0.40 (the §3 fixed-margin write). -/
def salesProfitOverwritten (df : Table) : Prop :=
  ∀ p ∈ analyze_sales df, p.2.cols.profit = true ∧
    ∀ r ∈ p.2.rows, r.Profit = r.Revenue * (2/5)

/-- The number of rows whose status case-insensitively equals "failed". -/
def failedCount (rows : List Row) : ℕ :=
  (rows.filter fun r => decide (lowerStr r.Pass_Fail_Status = "failed")).length

/-- A row with every field zeroed/blank; concrete rows below override the
fields their table's columns carry. -/
def baseRow : Row :=
  ⟨0, 0, 0, "", 0, 0, 0, 0, "", "", 0, 0, 0, 0, "", "", 0⟩

/-- No columns present. -/
def noCols : Cols :=
  ⟨false, false, false, false, false, false, false, false, false, false,
   false, false, false, false, false, false, false⟩

/-- Columns of a normalized Field/Inventory table. -/
def invCols : Cols :=
  { noCols with inventoryLevel := true, dailyConsumption := true,
                lowStockAlerts := true, storeID := true }

/-- Store S1: level 50, consumption 10 (5 days of stock). -/
def s1Row : Row :=
  { baseRow with Store_ID := "S1", Inventory_Level := 50, Daily_Consumption := 10 }

/-- Store S2: level 100, consumption 0 (unbounded stock). -/
def s2Row : Row :=
  { baseRow with Store_ID := "S2", Inventory_Level := 100, Daily_Consumption := 0 }

/-- The spec's inventory scenario table: stores S1 and S2. -/
def invScenarioTable : Table := ⟨invCols, [s1Row, s2Row]⟩

/-- Columns of a normalized manufacturing table (per-record Defect_Rate
precomputed by the schema normalizer). -/
def mfgCols : Cols :=
  { noCols with quantityProduced := true, defects := true, defectRate := true }

/-- Line A: produced 100, defects 10 (10% per-record rate). -/
def rowA : Row :=
  { baseRow with Line_ID := "A", Quantity_Produced := 100, Defects := 10,
                 Defect_Rate := 10 }

/-- Line B: produced 10, defects 10 (100% per-record rate). -/
def rowB : Row :=
  { baseRow with Line_ID := "B", Quantity_Produced := 10, Defects := 10,
                 Defect_Rate := 100 }

/-- The spec's weighted-vs-arithmetic-mean scenario table: lines A and B. -/
def abTable : Table := ⟨mfgCols, [rowA, rowB]⟩

/-- An empty manufacturing table. -/
def emptyMfgTable : Table := ⟨mfgCols, []⟩

/-- Columns of a normalized sales table. -/
def salesCols : Cols := { noCols with revenue := true, profit := true }

/-- A non-empty sales table whose total revenue is zero. -/
def zeroRevenueTable : Table := ⟨salesCols, [baseRow]⟩

/-- A sales table whose stored Profit (99) disagrees with Revenue × 0.40. -/
def staleProfitTable : Table :=
  ⟨salesCols, [{ baseRow with Revenue := 100, Profit := 99 }]⟩

/-- Columns of a normalized testing table. -/
def testCols : Cols := { noCols with passFailStatus := true }

/-- A testing row with the given status. -/
def tRow (s : String) : Row := { baseRow with Pass_Fail_Status := s }

/-- The spec's testing scenario: 10 rows, 3 "Failed" in mixed case. -/
def testTable10 : Table :=
  ⟨testCols, [tRow "Passed", tRow "passed", tRow "PASSED", tRow "Passed",
              tRow "Passed", tRow "Passed", tRow "Passed", tRow "Failed",
              tRow "FAILED", tRow "failed"]⟩

/-- A non-empty testing table without a Pass_Fail_Status column. -/
def testNoColTable : Table := ⟨noCols, [tRow "Failed", tRow "Passed"]⟩

/-- A unified table for exercising the chat pipeline. -/
def chatTable : Table := ⟨noCols, []⟩

/-! ## Theorems -/

/-- C1: on the spec's scenario table (S1: level 50 / consumption 10, S2:
level 100 / consumption 0), the code leaves S2's Days_to_Depletion at 0 —
not at the sentinel 999 — so S2 is counted into `avg_days_to_depletion`
(yielding 5/2 instead of 5) and appears in `critical_stores` (which comes
out as S2 then S1 instead of S1 alone).  The masked division is only
performed where consumption is positive, so the `replace(inf, 999)` step
never fires and the `< 999` exclusions never exclude anything. -/
theorem C1_zero_consumption_gets_zero_not_sentinel :
    invSummary invScenarioTable = some (5/2, ["S2", "S1"], [5, 0]) := by
  simp only [invSummary, analyze_inventory, invScenarioTable, invCols, noCols,
    s1Row, s2Row, baseRow, sumQ, meanQ, sortLe, insLe, List.filter, List.map,
    List.isEmpty, List.foldr, List.length]
  norm_num [sortLe, insLe, List.map]

/-- C3: on the A/B scenario rows the dispatcher's manufacturing branch
reports the arithmetic mean of the per-record defect rates (55), while
`analyze_quality` on the same rows reports the production-weighted mean
(200/11 ≈ 18.18); the two disagree, so the dispatcher is not a refinement of
the aggregator on this metric. -/
theorem C3_dispatcher_uses_arithmetic_mean :
    execute_analysis abTable "manufacturing_quality" "bar_chart"
        = (Insight.manufacturing 55 110 20 none, none)
      ∧ qualityAvg abTable = some (200/11)
      ∧ ¬ (55 : ℚ) = 200/11 := by
  have h1 : strContains (lowerStr "manufacturing_quality") "sales" = false := by decide
  have h2 : strContains (lowerStr "manufacturing_quality") "revenue" = false := by decide
  have h3 : strContains (lowerStr "manufacturing_quality") "manufacturing" = true := by decide
  refine ⟨?_, ?_, by norm_num⟩
  · simp only [execute_analysis, abTable, mfgCols, noCols, rowA, rowB, baseRow,
      h1, h2, h3, Bool.false_or, Bool.or_false, Bool.true_or, meanQ, sumQ,
      List.map, List.foldr, List.length, List.isEmpty]
    norm_num
  · simp only [qualityAvg, analyze_quality, abTable, mfgCols, noCols, rowA,
      rowB, baseRow, sumQ, List.map, List.isEmpty, List.foldr]
    norm_num

/-- C4: on a non-empty sales table with zero total revenue, the dispatcher's
sales branch interpolates the unguarded `total_profit/total_revenue*100`,
which is the float `0/0 = NaN` — not the 0 the invariant demands — while
`analyze_sales` on the same table does guard the division and returns a
`profit_margin` of 0. -/
theorem C4_dispatcher_margin_nan :
    execute_analysis zeroRevenueTable "sales_revenue" "bar_chart"
        = (Insight.sales 0 0 PdNum.nan none, none)
      ∧ salesMargin zeroRevenueTable = some 0 := by
  have h1 : strContains (lowerStr "sales_revenue") "sales" = true := by decide
  constructor
  · simp only [execute_analysis, zeroRevenueTable, salesCols, noCols, baseRow,
      h1, Bool.true_or, pdDivPct, sumQ, List.map, List.foldr, List.isEmpty]
    norm_num
  · simp only [salesMargin, analyze_sales, zeroRevenueTable, salesCols, noCols,
      baseRow, sumQ, List.map, List.foldr, List.isEmpty]
    norm_num

/-- C5 counterexample: `analyze_sales` does not leave its input unchanged —
on a table whose stored Profit column (99) disagrees with Revenue × 0.40,
the table after the call differs from the table before it. -/
theorem C5_sales_mutates_input :
    salesPostTable staleProfitTable ≠ some staleProfitTable := by
  simp only [salesPostTable, analyze_sales, staleProfitTable, salesCols, noCols,
    baseRow, sumQ, List.map, List.foldr, List.isEmpty]
  norm_num

theorem sumQ_nil : sumQ [] = 0 := rfl

theorem sumQ_cons (a : ℚ) (l : List ℚ) : sumQ (a :: l) = a + sumQ l := rfl

/-- The in-place Defect_Rate writes of `analyze_quality` do not change the
Quantity_Produced column, hence not its sum. -/
theorem sumQ_qp_after_rate_writes (l : List Row) :
    sumQ (((l.map fun r => { r with Defect_Rate := (0:ℚ) }).map fun r =>
        if r.Quantity_Produced > 0 then
          { r with Defect_Rate := r.Defects / r.Quantity_Produced * 100 }
        else r).map Row.Quantity_Produced)
      = sumQ (l.map Row.Quantity_Produced) := by
  induction l with
  | nil => rfl
  | cons a l ih =>
    simp only [List.map_cons, sumQ_cons, ih]
    congr 1
    split <;> rfl

/-- The in-place Defect_Rate writes of `analyze_quality` do not change the
Defects column, hence not its sum. -/
theorem sumQ_defects_after_rate_writes (l : List Row) :
    sumQ (((l.map fun r => { r with Defect_Rate := (0:ℚ) }).map fun r =>
        if r.Quantity_Produced > 0 then
          { r with Defect_Rate := r.Defects / r.Quantity_Produced * 100 }
        else r).map Row.Defects)
      = sumQ (l.map Row.Defects) := by
  induction l with
  | nil => rfl
  | cons a l ih =>
    simp only [List.map_cons, sumQ_cons, ih]
    congr 1
    split <;> rfl

/-- C2: on every manufacturing table with the Quantity_Produced and Defects
columns and a positive total production, `analyze_quality` reports the
production-weighted defect rate `Σ Defects / Σ Quantity_Produced × 100`
computed from the totals — not the arithmetic mean of per-record rates. -/
theorem C2_avg_defect_rate_weighted : ∀ df : Table,
    df.cols.quantityProduced = true → df.cols.defects = true →
    0 < sumQ (df.rows.map Row.Quantity_Produced) →
    qualityAvg df = some (sumQ (df.rows.map Row.Defects) /
      sumQ (df.rows.map Row.Quantity_Produced) * 100) := by
  intro df hq hd hpos
  have hne : df.rows.isEmpty = false := by
    cases hr : df.rows with
    | nil => rw [hr] at hpos; simp [sumQ] at hpos
    | cons a l => rfl
  simp only [qualityAvg, analyze_quality, hne, hq, hd, Bool.and_self,
    Bool.not_true, Bool.false_eq_true, if_false, Bool.true_eq_false, if_true,
    ite_true, ite_false, gt_iff_lt, Option.map_some,
    sumQ_qp_after_rate_writes, sumQ_defects_after_rate_writes]
  rw [if_pos hpos]
  rfl

/-- C2 witness: the spec's scenario — lines A (produced 100, defects 10) and
B (produced 10, defects 10) combined give 200/11 ≈ 18.18, not the 55 the
arithmetic mean of the per-record rates would give. -/
theorem C2_avg_defect_rate_weighted_witness :
    abTable.cols.quantityProduced = true ∧ abTable.cols.defects = true
      ∧ 0 < sumQ (abTable.rows.map Row.Quantity_Produced)
      ∧ qualityAvg abTable = some (200/11) ∧ ¬ (200/11 : ℚ) = 55 :=
  ⟨rfl, rfl, by norm_num [abTable, rowA, rowB, baseRow, sumQ],
   (C2_avg_defect_rate_weighted abTable rfl rfl
      (by norm_num [abTable, rowA, rowB, baseRow, sumQ])).trans
     (by norm_num [abTable, rowA, rowB, baseRow, sumQ]),
   by norm_num⟩

/-- C5 amended: far from leaving the table unchanged, `analyze_sales`
overwrites the Profit column in place on every non-empty table with a
Revenue column — afterwards the table has a Profit column and every row's
Profit equals Revenue × 0.40, so any input whose stored Profit differs is
modified (`analyze_quality` and `analyze_inventory` overwrite Defect_Rate
and Days_to_Depletion the same way; `analyze_testing` alone performs no
writes). -/
theorem C5_amended_sales_overwrites_profit : ∀ df : Table,
    df.rows.isEmpty = false → df.cols.revenue = true →
    salesProfitOverwritten df := by
  intro df hne hrev p hp
  rw [Option.mem_def] at hp
  simp only [analyze_sales, hne, hrev, Bool.not_true, Bool.false_eq_true,
    if_false, ite_false] at hp
  split at hp <;> split at hp <;>
    first
    | exact Option.noConfusion hp
    | · rw [Option.some_inj] at hp
        subst hp
        refine ⟨rfl, ?_⟩
        intro r hr
        simp only [List.map_map, List.mem_map, Function.comp] at hr
        obtain ⟨a, _, rfl⟩ := hr
        rfl

/-- C5 amended witness: on the concrete stale-Profit table the overwrite
property holds (its single row leaves with Profit 40 = 100 × 0.40). -/
theorem C5_amended_sales_overwrites_profit_witness :
    staleProfitTable.rows.isEmpty = false
      ∧ staleProfitTable.cols.revenue = true
      ∧ salesProfitOverwritten staleProfitTable :=
  ⟨rfl, rfl, C5_amended_sales_overwrites_profit staleProfitTable rfl rfl⟩

/-- C9: on every manufacturing table with no rows, `analyze_quality` returns
the zeroed metrics structure (all totals 0, empty trend, empty line
performance, empty anomaly list) without raising, and leaves the table
untouched. -/
theorem C9_quality_empty_zeroed : ∀ df : Table, df.rows = [] →
    analyze_quality df = some (zeroQualityMetrics, df) := by
  intro df h
  unfold analyze_quality
  simp [h]

/-- C9 witness: the zeroed result on a concrete empty table. -/
theorem C9_quality_empty_zeroed_witness :
    emptyMfgTable.rows = []
      ∧ analyze_quality emptyMfgTable = some (zeroQualityMetrics, emptyMfgTable) :=
  ⟨rfl, C9_quality_empty_zeroed emptyMfgTable rfl⟩

/-- C10: on every non-empty testing table lacking a Pass_Fail_Status column,
`analyze_testing` reports the row count but a zero pass rate and zero failed
tests (the status block is skipped and the initializers are returned). -/
theorem C10_missing_status_column : ∀ df : Table,
    df.rows.isEmpty = false → df.cols.passFailStatus = false →
    analyze_testing df = ⟨df.rows.length, 0, 0⟩ := by
  intro df h1 h2
  unfold analyze_testing
  simp [h1, h2]

/-- C10 witness: a concrete 2-row table without the status column. -/
theorem C10_missing_status_column_witness :
    testNoColTable.rows.isEmpty = false
      ∧ testNoColTable.cols.passFailStatus = false
      ∧ analyze_testing testNoColTable = ⟨2, 0, 0⟩ :=
  ⟨rfl, rfl, (C10_missing_status_column testNoColTable rfl rfl).trans (by decide)⟩

/-- C6: on every non-empty testing table with a Pass_Fail_Status column,
`analyze_testing` reports the row count, the number of rows whose status
case-insensitively equals "failed", and the pass rate
`(total - failed)/total × 100`. -/
theorem C6_testing_metrics : ∀ df : Table,
    df.rows.isEmpty = false → df.cols.passFailStatus = true →
    analyze_testing df =
      ⟨df.rows.length,
       ((df.rows.length : ℚ) - failedCount df.rows) / df.rows.length * 100,
       failedCount df.rows⟩ := by
  intro df h1 h2
  have hlen : 0 < df.rows.length := by
    cases hr : df.rows with
    | nil => rw [hr] at h1; simp at h1
    | cons a l => rw [List.length_cons]; exact Nat.succ_pos _
  unfold analyze_testing failedCount
  simp [h1, h2, hlen]

theorem filterStage_comp (p q : Row → Bool) (t : Table) :
    filterStage p (filterStage q t) = filterStage (fun r => p r && q r) t := by
  simp [filterStage, List.filter_filter]

theorem filterStage_true (t : Table) : filterStage (fun _ => true) t = t := by
  cases t
  simp [filterStage, List.filter_true]

theorem filterStage_congr {p q : Row → Bool} (h : ∀ r, p r = q r) (t : Table) :
    filterStage p t = filterStage q t := by
  simp only [filterStage]
  congr 1
  exact List.filter_congr fun a _ => h a

/-- The `time_range` branch chain filters by its row predicate (or not at
all, which is a filter by the constantly-true predicate). -/
theorem timeStage_eq (now : ℤ) (tr : String) (t : Table) :
    timeStage now tr t = filterStage (timePred now tr) t := by
  simp only [timeStage]
  split_ifs with h1 h2 h3 h4
  case _ => exact filterStage_congr (fun r => by simp [timePred, *]) t
  case _ => exact filterStage_congr (fun r => by simp [timePred, *]) t
  case _ => exact filterStage_congr (fun r => by simp [timePred, *]) t
  case _ => exact filterStage_congr (fun r => by simp [timePred, *]) t
  case _ =>
    exact (filterStage_true t).symm.trans
      (filterStage_congr (fun r => by simp [timePred, *]) t)

/-- A guarded filter stage filters by its guarded predicate. -/
theorem optStage_eq {σ : Type} (o : Option σ) (flag : Bool)
    (p : σ → Row → Bool) (t : Table) :
    optStage o flag p t = filterStage (optPred o flag p) t := by
  cases o with
  | none =>
    exact (filterStage_true t).symm.trans
      (filterStage_congr (fun r => by simp [optPred]) t)
  | some x =>
    cases flag with
    | false =>
      exact (filterStage_true t).symm.trans
        (filterStage_congr (fun r => by simp [optStage, optPred]) t)
    | true => exact filterStage_congr (fun r => by simp [optPred]) t

/-- The guarded time stage filters by its guarded predicate. -/
theorem timeStageOpt_eq (now : ℤ) (o : Option String) (flag : Bool) (t : Table) :
    timeStageOpt now o flag t
      = filterStage (optPred o flag (timePred now)) t := by
  cases o with
  | none =>
    exact (filterStage_true t).symm.trans
      (filterStage_congr (fun r => by simp [optPred]) t)
  | some tr =>
    cases flag with
    | false =>
      exact (filterStage_true t).symm.trans
        (filterStage_congr (fun r => by simp [optPred]) t)
    | true =>
      exact (timeStage_eq now tr t).trans
        (filterStage_congr (fun r => by simp [optPred]) t)

/-- Applying `_apply_filters` with a present filter spec keeps the column set and
filters the rows by the conjunction of the five stage predicates. -/
theorem apply_filters_some (now : ℤ) (df : Table) (fs : FilterSpec) :
    apply_filters now df (some fs)
      = ⟨df.cols, df.rows.filter (fullPred now df.cols fs)⟩ := by
  by_cases hr : df.rows.isEmpty = true
  · have hnil : df.rows = [] := List.isEmpty_iff.mp hr
    cases df with
    | mk c rows =>
      simp only at hnil
      subst hnil
      simp [apply_filters]
  · simp only [apply_filters, hr, Bool.false_eq_true, if_false]
    rw [timeStageOpt_eq]
    rw [optStage_eq, optStage_eq, optStage_eq, optStage_eq]
    simp only [filterStage, List.filter_filter]
    rfl

/-- C7: filter application is idempotent — for every table, every filter
spec (including an absent one), and a fixed reference instant `now`,
applying `_apply_filters` twice gives the same table as applying it once
(every stage filters by a row predicate that does not depend on the
surviving rows). -/
theorem C7_filter_idempotent : ∀ (now : ℤ) (df : Table)
    (filters : Option FilterSpec),
    apply_filters now (apply_filters now df filters) filters
      = apply_filters now df filters := by
  intro now df filters
  cases filters with
  | none => rfl
  | some fs =>
    rw [apply_filters_some now df fs, apply_filters_some]
    simp [List.filter_filter, Bool.and_self]

/-- C8: whenever the intent classifier produced nothing usable — a transport
error, a timeout, a response without candidates, or malformed JSON, all of
which `_call_gemini_api` absorbs into `None` — `process_chat_query` returns
the fixed user-facing failure string with no chart and without raising; the
reply is the same constant for every such outcome, so no transport-level
detail (status codes, stack traces) can reach the conversation. -/
theorem C8_classification_failure_reply : ∀ (k : String) (now : ℤ)
    (outcome : ClassifierOutcome) (full_df : Table),
    ¬ k = "" → call_gemini_api (some k) outcome = none →
    process_chat_query (some k) now outcome full_df
      = (ChatText.plain "❌ Failed to process your question. Please try again.",
         none) := by
  intro k now outcome full_df hk hcall
  have hfalsy : keyFalsy (some k) = false := by
    simp [keyFalsy, hk]
  simp only [process_chat_query, hfalsy, Bool.false_eq_true, if_false, hcall]

/-- C8 witness: a classifier reply that is not JSON yields the constant
failure message and no chart. -/
theorem C8_classification_failure_reply_witness :
    ¬ ("demo-key" : String) = ""
      ∧ call_gemini_api (some "demo-key")
          (ClassifierOutcome.malformedJSON "HTTP 500: internal traceback") = none
      ∧ process_chat_query (some "demo-key") 0
          (ClassifierOutcome.malformedJSON "HTTP 500: internal traceback") chatTable
        = (ChatText.plain "❌ Failed to process your question. Please try again.",
           none) :=
  ⟨by decide, rfl,
   C8_classification_failure_reply "demo-key" 0
     (ClassifierOutcome.malformedJSON "HTTP 500: internal traceback") chatTable
     (by decide) rfl⟩

/-- C6 witness: the spec's scenario — 10 rows with 3 "Failed" in mixed case
give a 70% pass rate and 3 failed tests. -/
theorem C6_testing_metrics_witness :
    testTable10.rows.isEmpty = false
      ∧ testTable10.cols.passFailStatus = true
      ∧ analyze_testing testTable10 = ⟨10, 70, 3⟩ :=
  ⟨rfl, rfl, (C6_testing_metrics testTable10 rfl rfl).trans (by
    have hf : failedCount testTable10.rows = 3 := by decide
    have hl : testTable10.rows.length = 10 := by decide
    rw [hf, hl]; norm_num)⟩

end AICDP
